import Mathlib

/-!
Shallow embedding of the worktree lifecycle module of the gitgud
repository (file apps/gitrekt/c_src/worktree.c).

The C functions geef_worktree_add, geef_worktree_prune and
geef_worktree_free are modelled as pure Lean functions that return the
Erlang term produced by the call together with a trace of the
resource-management and engine effects the call performs, in the order
the C code performs them.  Every fallible host-runtime or libgit2 call
is resolved by an explicit environment record, so the model covers
every control-flow path of the source.
-/

namespace Gitgud

/-- Erlang terms as produced by this module: atoms, binaries, resource
handles, 2-tuples, and the bad-argument exception raised by
enif_make_badarg. -/
inductive Term where
  | atom (s : String)
  | binary (s : String)
  | resource (id : Nat)
  | tuple2 (a b : Term)
  | badarg
  deriving DecidableEq

/-- Whether a resource handle occurs anywhere inside the term. -/
def Term.containsResource : Term → Bool
  | Term.atom _ => false
  | Term.binary _ => false
  | Term.resource _ => true
  | Term.tuple2 a b => a.containsResource || b.containsResource
  | Term.badarg => false

/-- The three input binaries of geef_worktree_add. -/
inductive BinId where
  | name
  | path
  | ref
  deriving DecidableEq

/-- Options handed to git_worktree_add; only the start-point reference
field matters for this module.  In the source the reference field of
git_worktree_add_options is a pointer to a looked-up reference, NULL
when absent; here it is an optional reference identifier. -/
structure AddOpts where
  ref : Option Nat
  deriving DecidableEq

/-- GIT_WORKTREE_ADD_OPTIONS_INIT leaves the reference field NULL. -/
def GIT_WORKTREE_ADD_OPTIONS_INIT : AddOpts := ⟨none⟩

/-- Options handed to git_worktree_prune; flags is the bit set. -/
structure PruneOpts where
  flags : Nat
  deriving DecidableEq

/-- GIT_WORKTREE_PRUNE_OPTIONS_INIT starts with an empty flag set. -/
def GIT_WORKTREE_PRUNE_OPTIONS_INIT : PruneOpts := ⟨0⟩

/-- GIT_WORKTREE_PRUNE_VALID is bit 0: prune even if the worktree
administrative files look stale or invalid. -/
def GIT_WORKTREE_PRUNE_VALID : Nat := 1

/-- Observable effects of a call, in source order:  allocation and
release of the worktree resource shell (enif_alloc_resource and
enif_release_resource), release of an input binary
(enif_release_binary), the libgit2 calls (git_reference_lookup,
git_reference_free, git_worktree_add, git_worktree_prune,
git_worktree_free), the repository reference-count operations
(enif_keep_resource, enif_release_resource on the repo) and the
creation of the resource term (enif_make_resource). -/
inductive Event where
  | allocWorktreeRes
  | releaseWorktreeRes
  | releaseBinary (b : BinId)
  | engineRefLookup (refname : String)
  | engineRefFree
  | engineWorktreeAdd (name path : String) (opts : AddOpts)
  | enginePrune (opts : PruneOpts)
  | keepRepo
  | releaseRepo
  | engineWorktreeFree
  | makeResourceTerm
  deriving DecidableEq

/-- Whether the effect is a call into the libgit2 engine. -/
def Event.isEngineCall : Event → Bool
  | Event.engineRefLookup _ => true
  | Event.engineRefFree => true
  | Event.engineWorktreeAdd _ _ _ => true
  | Event.enginePrune _ => true
  | Event.engineWorktreeFree => true
  | _ => false

/-- The libgit2 version the module is built against. -/
structure Version where
  major : Nat
  minor : Nat
  deriving DecidableEq

/-- The preprocessor gate of both NIFs:
LIBGIT2_VER_MAJOR < 1 && LIBGIT2_VER_MINOR < 27. -/
def versionGateFails (v : Version) : Bool :=
  decide (v.major < 1) && decide (v.minor < 27)

/-- The message built on the version-gate path. -/
def requiredVersionMsg : String := "libgit2 version >= 0.27.x required"

/-- Modelled from the spec: geef_error lives in the shared NIF helpers,
outside this file; per the spec every failure yields a structured error
distinguishable by kind plus an optional human-readable message sourced
from the engine, so it is the error tuple carrying the engine message. -/
def geef_error (msg : String) : Term :=
  Term.tuple2 (Term.atom "error") (Term.binary msg)

/-- Modelled from the spec: geef_oom lives in the shared NIF helpers,
outside this file; it is the structured out-of-memory error term. -/
def geef_oom : Term :=
  Term.tuple2 (Term.atom "error") (Term.atom "enomem")

/-- Modelled from the spec: a structured error value distinguishable by
kind is an error-tagged tuple; a bare atom is not structured. -/
def isStructuredError : Term → Bool
  | Term.tuple2 (Term.atom "error") _ => true
  | _ => false

/-- The third NIF argument of geef_worktree_add: the optional reference
name is the atom undefined, a binary, or some other ill-typed term. -/
inductive RefArg where
  | undefined
  | binary (refname : String)
  | other
  deriving DecidableEq

/-- Resolution of every fallible host or engine call made by
geef_worktree_add, together with the decoded argument contents.
Field order follows the order the calls occur in the source. -/
structure AddEnv where
  repoOk : Bool         -- enif_get_resource on argv[0]
  allocOk : Bool        -- enif_alloc_resource for the worktree shell
  nameIsBinary : Bool   -- enif_inspect_binary on argv[1]
  nameVal : String
  nameTermOk : Bool     -- geef_terminate_binary on name_bin
  pathIsBinary : Bool   -- enif_inspect_binary on argv[2]
  pathVal : String
  pathTermOk : Bool     -- geef_terminate_binary on path_bin
  refArg : RefArg       -- argv[3]
  refTermOk : Bool      -- geef_terminate_binary on ref_bin
  lookupOk : Bool       -- git_reference_lookup
  addOk : Bool          -- git_worktree_add
  stringToBinOk : Bool  -- geef_string_to_bin on the version-gate path
  engineMsg : String    -- giterr_last payload used by geef_error
  deriving DecidableEq

/-- Shallow embedding of geef_worktree_add (worktree.c lines 14-89):
the Erlang term of the call and the effect trace, following the C
control flow line by line.  The assignment of the looked-up reference
into the creation options is commented out in the source (lines 64-65),
so the options passed to git_worktree_add always stay
GIT_WORKTREE_ADD_OPTIONS_INIT; the release of the worktree shell on the
creation-failure path is commented out as well (line 70). -/
def geef_worktree_add (v : Version) (e : AddEnv) : Term × List Event :=
  if versionGateFails v then
    if e.stringToBinOk then
      (Term.tuple2 (Term.atom "ok") (Term.binary requiredVersionMsg), [])
    else
      (geef_error e.engineMsg, [])
  else if !e.repoOk then
    (Term.badarg, [])
  else if !e.allocOk then
    (geef_oom, [])
  else if !e.nameIsBinary then
    (Term.badarg, [Event.allocWorktreeRes])
  else if !e.nameTermOk then
    (geef_oom, [Event.allocWorktreeRes])
  else if !e.pathIsBinary then
    (Term.badarg, [Event.allocWorktreeRes])
  else if !e.pathTermOk then
    (geef_oom, [Event.allocWorktreeRes])
  else
    match e.refArg with
    | RefArg.other => (Term.badarg, [Event.allocWorktreeRes])
    | RefArg.undefined =>
      if !e.addOk then
        (geef_error e.engineMsg,
          [Event.allocWorktreeRes,
           Event.engineWorktreeAdd e.nameVal e.pathVal GIT_WORKTREE_ADD_OPTIONS_INIT])
      else
        (Term.tuple2 (Term.atom "ok") (Term.resource 0),
          [Event.allocWorktreeRes,
           Event.engineWorktreeAdd e.nameVal e.pathVal GIT_WORKTREE_ADD_OPTIONS_INIT,
           Event.releaseBinary BinId.name, Event.releaseBinary BinId.path,
           Event.makeResourceTerm, Event.releaseWorktreeRes, Event.keepRepo])
    | RefArg.binary refname =>
      if !e.refTermOk then
        (Term.atom "error", [Event.allocWorktreeRes])
      else if !e.lookupOk then
        (geef_error e.engineMsg,
          [Event.allocWorktreeRes, Event.engineRefLookup refname])
      else if !e.addOk then
        (geef_error e.engineMsg,
          [Event.allocWorktreeRes, Event.engineRefLookup refname,
           Event.releaseBinary BinId.ref,
           Event.engineWorktreeAdd e.nameVal e.pathVal GIT_WORKTREE_ADD_OPTIONS_INIT])
      else
        (Term.tuple2 (Term.atom "ok") (Term.resource 0),
          [Event.allocWorktreeRes, Event.engineRefLookup refname,
           Event.releaseBinary BinId.ref,
           Event.engineWorktreeAdd e.nameVal e.pathVal GIT_WORKTREE_ADD_OPTIONS_INIT,
           Event.releaseBinary BinId.name, Event.releaseBinary BinId.path,
           Event.engineRefFree, Event.releaseBinary BinId.ref,
           Event.makeResourceTerm, Event.releaseWorktreeRes, Event.keepRepo])

/-- The success term of a creation call: the ok tuple carrying the
worktree resource handle. -/
def addSuccessTerm : Term := Term.tuple2 (Term.atom "ok") (Term.resource 0)

/-- The boundary type failures of geef_worktree_add, in source order:
the repository argument fails resource decoding (line 29), or — shell
allocation having succeeded — the name argument is not a binary
(line 36), or — name inspected and terminated — the path argument is
not a binary (line 42), or — name and path inspected and terminated —
the reference argument is neither the atom undefined nor a binary
(lines 49-55).  These are exactly the paths of the supported build that
raise enif_make_badarg. -/
def typeMismatch (e : AddEnv) : Bool :=
  !e.repoOk
  || (e.repoOk && e.allocOk && !e.nameIsBinary)
  || (e.repoOk && e.allocOk && e.nameIsBinary && e.nameTermOk && !e.pathIsBinary)
  || (e.repoOk && e.allocOk && e.nameIsBinary && e.nameTermOk && e.pathIsBinary
      && e.pathTermOk
      && (match e.refArg with | RefArg.other => true | _ => false))

/-- Resolution of the fallible calls made by geef_worktree_prune. -/
structure PruneEnv where
  handleOk : Bool       -- enif_get_resource on argv[0]
  stale : Bool          -- the on-disk worktree directory is already gone
  ioOk : Bool           -- no unrelated engine I/O failure
  stringToBinOk : Bool  -- geef_string_to_bin on the version-gate path
  engineMsg : String    -- giterr_last payload used by geef_error
  deriving DecidableEq

/-- Modelled from the spec: git_worktree_prune is part of the external
engine; its default staleness heuristics make pruning a worktree whose
directory is gone fail unless the caller sets GIT_WORKTREE_PRUNE_VALID
to treat the worktree as valid anyway; otherwise it succeeds whenever
no unrelated I/O error occurs. -/
def enginePruneSucceeds (stale ioOk : Bool) (opts : PruneOpts) : Bool :=
  (!stale || opts.flags.testBit 0) && ioOk

/-- Shallow embedding of geef_worktree_prune (worktree.c lines 91-113):
the options start from GIT_WORKTREE_PRUNE_OPTIONS_INIT and the
GIT_WORKTREE_PRUNE_VALID bit is or-ed in before the engine call. -/
def geef_worktree_prune (v : Version) (e : PruneEnv) : Term × List Event :=
  if versionGateFails v then
    if e.stringToBinOk then
      (Term.tuple2 (Term.atom "ok") (Term.binary requiredVersionMsg), [])
    else
      (geef_error e.engineMsg, [])
  else if !e.handleOk then
    (Term.badarg, [])
  else
    let opts : PruneOpts :=
      ⟨GIT_WORKTREE_PRUNE_OPTIONS_INIT.flags ||| GIT_WORKTREE_PRUNE_VALID⟩
    if enginePruneSucceeds e.stale e.ioOk opts then
      (Term.atom "ok", [Event.enginePrune opts])
    else
      (geef_error e.engineMsg, [Event.enginePrune opts])

/-- Shallow embedding of the destructor geef_worktree_free (worktree.c
lines 7-12): one invocation releases the repository reference with
enif_release_resource and then frees the engine worktree resource with
git_worktree_free, in that source order. -/
def geef_worktree_free : List Event :=
  [Event.releaseRepo, Event.engineWorktreeFree]

/-- A creation call whose reference name resolves and whose engine
creation succeeds; every host and engine call succeeds. -/
def addEnvRefResolved : AddEnv :=
  ⟨true, true, true, "wt", true, true, "/tmp/wt", true,
   RefArg.binary "refs/heads/main", true, true, true, true, "m"⟩

/-- A creation call whose reference name resolves but whose engine
creation call git_worktree_add fails. -/
def addEnvAddFails : AddEnv :=
  ⟨true, true, true, "wt", true, true, "/tmp/wt", true,
   RefArg.binary "refs/heads/main", true, true, false, true, "add failed"⟩

/-- A creation call supplying a reference name for which
geef_terminate_binary on the reference buffer fails. -/
def addEnvRefTermFails : AddEnv :=
  ⟨true, true, true, "wt", true, true, "/tmp/wt", true,
   RefArg.binary "refs/heads/main", false, true, true, true, "m"⟩

/-- A creation call with an empty (but well-typed) worktree name; the
engine rejects it, as an empty name is not a valid worktree name. -/
def addEnvEmptyName : AddEnv :=
  ⟨true, true, true, "", true, true, "/tmp/wt1", true,
   RefArg.undefined, true, true, false, true, "engine rejected"⟩

/-- A creation call whose name and path binaries are both empty and
whose host and engine calls all succeed. -/
def addEnvEmptyBoth : AddEnv :=
  ⟨true, true, true, "", true, true, "", true,
   RefArg.undefined, true, true, true, true, "m"⟩

/-- A creation call whose repository argument fails resource decoding. -/
def addEnvBadRepo : AddEnv :=
  ⟨false, true, true, "wt", true, true, "/tmp/wt", true,
   RefArg.undefined, true, true, true, true, "m"⟩

/-- A prune call on a valid handle whose worktree directory is already
gone and whose engine I/O succeeds. -/
def pruneEnvStale : PruneEnv := ⟨true, true, true, true, "m"⟩

/-- Case analysis of geef_worktree_add on a supported build, shared by
the claims below: the call returns badarg exactly on the boundary type
failures collected in typeMismatch; every result is the success term or
contains no resource handle; every badarg path performs no engine call;
and whenever name and path pass inspection and termination (with the
reference argument absent) their contents — empty or not — are handed
verbatim to git_worktree_add. -/
theorem add_main_cases (v : Version) (e : AddEnv) :
    versionGateFails v = true ∨
    (((geef_worktree_add v e).1 = Term.badarg ↔ typeMismatch e = true) ∧
     ((geef_worktree_add v e).1 = addSuccessTerm ∨
       Term.containsResource (geef_worktree_add v e).1 = false) ∧
     (typeMismatch e = true →
       ∀ ev ∈ (geef_worktree_add v e).2, ev.isEngineCall = false) ∧
     (e.repoOk = true → e.allocOk = true → e.nameIsBinary = true →
       e.nameTermOk = true → e.pathIsBinary = true → e.pathTermOk = true →
       e.refArg = RefArg.undefined →
       Event.engineWorktreeAdd e.nameVal e.pathVal GIT_WORKTREE_ADD_OPTIONS_INIT
         ∈ (geef_worktree_add v e).2)) := by
  cases hv : versionGateFails v
  case true => exact Or.inl rfl
  case false =>
    refine Or.inr ?_
    obtain ⟨ro, ao, nb, nv, nt, pb, pv, pt, ra, rt, lo, ad, sb, em⟩ := e
    cases ro
    case false =>
      simp [geef_worktree_add, typeMismatch, hv, Event.isEngineCall,
        geef_error, geef_oom, Term.containsResource, addSuccessTerm]
    case true =>
      cases ao
      case false =>
        simp [geef_worktree_add, typeMismatch, hv, Event.isEngineCall,
          geef_error, geef_oom, Term.containsResource, addSuccessTerm]
      case true =>
        cases nb
        case false =>
          simp [geef_worktree_add, typeMismatch, hv, Event.isEngineCall,
            geef_error, geef_oom, Term.containsResource, addSuccessTerm]
        case true =>
          cases nt
          case false =>
            simp [geef_worktree_add, typeMismatch, hv, Event.isEngineCall,
              geef_error, geef_oom, Term.containsResource, addSuccessTerm]
          case true =>
            cases pb
            case false =>
              simp [geef_worktree_add, typeMismatch, hv, Event.isEngineCall,
                geef_error, geef_oom, Term.containsResource, addSuccessTerm]
            case true =>
              cases pt
              case false =>
                simp [geef_worktree_add, typeMismatch, hv, Event.isEngineCall,
                  geef_error, geef_oom, Term.containsResource, addSuccessTerm]
              case true =>
                cases ra
                case other =>
                  simp [geef_worktree_add, typeMismatch, hv, Event.isEngineCall,
                    geef_error, geef_oom, Term.containsResource, addSuccessTerm]
                case undefined =>
                  cases ad <;>
                    simp [geef_worktree_add, typeMismatch, hv, Event.isEngineCall,
                      geef_error, geef_oom, Term.containsResource, addSuccessTerm,
                      GIT_WORKTREE_ADD_OPTIONS_INIT]
                case binary refname =>
                  cases rt
                  case false =>
                    simp [geef_worktree_add, typeMismatch, hv, Event.isEngineCall,
                      geef_error, geef_oom, Term.containsResource, addSuccessTerm]
                  case true =>
                    cases lo
                    case false =>
                      simp [geef_worktree_add, typeMismatch, hv, Event.isEngineCall,
                        geef_error, geef_oom, Term.containsResource, addSuccessTerm]
                    case true =>
                      cases ad <;>
                        simp [geef_worktree_add, typeMismatch, hv, Event.isEngineCall,
                          geef_error, geef_oom, Term.containsResource, addSuccessTerm]

/-- C1: the spec says the resolved reference is passed to the engine as
the creation start point, but the assignment into the options is
commented out in the source: on a call whose reference name is supplied
and resolves (the lookup event occurs), the engine creation call still
receives GIT_WORKTREE_ADD_OPTIONS_INIT, whose reference field is none. -/
theorem add_ref_resolved_but_opts_carry_no_ref :
    Event.engineRefLookup "refs/heads/main"
      ∈ (geef_worktree_add ⟨1, 0⟩ addEnvRefResolved).2 ∧
    Event.engineWorktreeAdd "wt" "/tmp/wt" GIT_WORKTREE_ADD_OPTIONS_INIT
      ∈ (geef_worktree_add ⟨1, 0⟩ addEnvRefResolved).2 ∧
    ((geef_worktree_add ⟨1, 0⟩ addEnvRefResolved).2).filterMap
        (fun ev => match ev with
          | Event.engineWorktreeAdd _ _ o => some o.ref
          | _ => none) = [none] := by
  decide

/-- C2: when the version gate fails, both operations return immediately
with an empty effect trace (no engine call), but the returned term is
an ok-tagged tuple carrying the requirement message, not an error. -/
theorem version_gate_returns_ok_tagged_message :
    (geef_worktree_add ⟨0, 26⟩ addEnvRefResolved).1
      = Term.tuple2 (Term.atom "ok") (Term.binary requiredVersionMsg) ∧
    (geef_worktree_add ⟨0, 26⟩ addEnvRefResolved).2 = [] ∧
    (geef_worktree_prune ⟨0, 26⟩ pruneEnvStale).1
      = Term.tuple2 (Term.atom "ok") (Term.binary requiredVersionMsg) ∧
    (geef_worktree_prune ⟨0, 26⟩ pruneEnvStale).2 = [] ∧
    isStructuredError (geef_worktree_add ⟨0, 26⟩ addEnvRefResolved).1 = false := by
  decide

/-- C3: on a creation call whose reference name resolves and whose
engine creation call fails, the call returns the error without freeing
the looked-up reference: the lookup event is in the trace but no
git_reference_free event is. -/
theorem add_failure_leaks_resolved_reference :
    Event.engineRefLookup "refs/heads/main"
      ∈ (geef_worktree_add ⟨1, 0⟩ addEnvAddFails).2 ∧
    Event.engineRefFree ∉ (geef_worktree_add ⟨1, 0⟩ addEnvAddFails).2 ∧
    (geef_worktree_add ⟨1, 0⟩ addEnvAddFails).1 = geef_error "add failed" := by
  decide

/-- C4: on a creation call that fails in the engine creation call, the
worktree resource shell allocated at the start of the call is not
released before the error is returned (the release is commented out in
the source): the allocation event is in the trace but no shell release
event is. -/
theorem add_failure_leaks_worktree_shell :
    Event.allocWorktreeRes ∈ (geef_worktree_add ⟨1, 0⟩ addEnvAddFails).2 ∧
    Event.releaseWorktreeRes ∉ (geef_worktree_add ⟨1, 0⟩ addEnvAddFails).2 ∧
    (geef_worktree_add ⟨1, 0⟩ addEnvAddFails).1 = geef_error "add failed" := by
  decide

/-- C5 counterexample: the claim states destruction frees the engine
worktree resource first and releases the repository reference second;
the destructor trace does the opposite, so the claimed order is false. -/
theorem free_order_claim_false :
    ¬ (geef_worktree_free.count Event.engineWorktreeFree = 1 ∧
       geef_worktree_free.count Event.releaseRepo = 1 ∧
       geef_worktree_free.indexOf Event.engineWorktreeFree
         < geef_worktree_free.indexOf Event.releaseRepo) := by
  decide

/-- C5 amended: one invocation of the destructor releases the
repository reference first and frees the engine worktree resource
second, each exactly once. -/
theorem free_releases_repo_then_worktree :
    geef_worktree_free = [Event.releaseRepo, Event.engineWorktreeFree] ∧
    geef_worktree_free.count Event.releaseRepo = 1 ∧
    geef_worktree_free.count Event.engineWorktreeFree = 1 := by
  decide

/-- C6 counterexample: a creation call with an empty (well-typed) name
is not rejected with InvalidArgument; the empty name is forwarded to
the engine creation call, which is invoked. -/
theorem empty_name_reaches_engine :
    (geef_worktree_add ⟨1, 0⟩ addEnvEmptyName).1 ≠ Term.badarg ∧
    Event.engineWorktreeAdd "" "/tmp/wt1" GIT_WORKTREE_ADD_OPTIONS_INIT
      ∈ (geef_worktree_add ⟨1, 0⟩ addEnvEmptyName).2 := by
  decide

/-- C6 amended: on a supported build the creation call returns
InvalidArgument (badarg) if and only if a boundary type failure occurs
— the repository argument fails resource decoding, or the name or path
argument is not a binary, or the reference argument is neither the atom
undefined nor a binary, in source order per typeMismatch — every badarg
return happens without any engine call, and emptiness is not checked:
name and path binaries that pass inspection and termination are handed
verbatim (empty or not) to the engine creation call. -/
theorem add_badarg_iff_type_mismatch (v : Version) (e : AddEnv)
    (hv : versionGateFails v = false) :
    ((geef_worktree_add v e).1 = Term.badarg ↔ typeMismatch e = true) ∧
    ((geef_worktree_add v e).1 = Term.badarg →
      ∀ ev ∈ (geef_worktree_add v e).2, ev.isEngineCall = false) ∧
    (e.repoOk = true → e.allocOk = true → e.nameIsBinary = true →
      e.nameTermOk = true → e.pathIsBinary = true → e.pathTermOk = true →
      e.refArg = RefArg.undefined →
      Event.engineWorktreeAdd e.nameVal e.pathVal GIT_WORKTREE_ADD_OPTIONS_INIT
        ∈ (geef_worktree_add v e).2) := by
  rcases add_main_cases v e with hgate | ⟨h1, _h2, h3, h4⟩
  · rw [hv] at hgate
    exact absurd hgate (by decide)
  · exact ⟨h1, fun hb => h3 (h1.mp hb), h4⟩

/-- Witness for the amended C6 at a creation call whose name and path
binaries are both empty: the iff gives no badarg there, and the empty
name and path are forwarded to the engine creation call. -/
theorem add_badarg_iff_type_mismatch_witness :
    versionGateFails ⟨1, 0⟩ = false ∧
    (((geef_worktree_add ⟨1, 0⟩ addEnvEmptyBoth).1 = Term.badarg ↔
        typeMismatch addEnvEmptyBoth = true) ∧
      ((geef_worktree_add ⟨1, 0⟩ addEnvEmptyBoth).1 = Term.badarg →
        ∀ ev ∈ (geef_worktree_add ⟨1, 0⟩ addEnvEmptyBoth).2,
          ev.isEngineCall = false) ∧
      (addEnvEmptyBoth.repoOk = true → addEnvEmptyBoth.allocOk = true →
        addEnvEmptyBoth.nameIsBinary = true →
        addEnvEmptyBoth.nameTermOk = true →
        addEnvEmptyBoth.pathIsBinary = true →
        addEnvEmptyBoth.pathTermOk = true →
        addEnvEmptyBoth.refArg = RefArg.undefined →
        Event.engineWorktreeAdd addEnvEmptyBoth.nameVal addEnvEmptyBoth.pathVal
            GIT_WORKTREE_ADD_OPTIONS_INIT
          ∈ (geef_worktree_add ⟨1, 0⟩ addEnvEmptyBoth).2)) :=
  ⟨by decide, add_badarg_iff_type_mismatch ⟨1, 0⟩ addEnvEmptyBoth (by decide)⟩

/-- C7: on the creation path where terminating the reference-name
buffer fails, the call returns the bare atom error, which is not the
structured error form the other validation and resolution failures
return (geef_oom and geef_error are structured). -/
theorem ref_terminate_failure_returns_bare_error :
    (geef_worktree_add ⟨1, 0⟩ addEnvRefTermFails).1 = Term.atom "error" ∧
    isStructuredError (geef_worktree_add ⟨1, 0⟩ addEnvRefTermFails).1 = false ∧
    isStructuredError geef_oom = true ∧
    isStructuredError (geef_error "m") = true := by
  decide

/-- C8: whenever a creation call does not produce the success term, the
term handed back to the caller contains no resource handle at all, so
no partially constructed worktree handle is ever reachable. -/
theorem no_handle_on_failure (v : Version) (e : AddEnv)
    (h : (geef_worktree_add v e).1 ≠ addSuccessTerm) :
    Term.containsResource (geef_worktree_add v e).1 = false := by
  rcases add_main_cases v e with hgate | ⟨_h1, h2, _h3, _h4⟩
  · obtain ⟨ro, ao, nb, nv, nt, pb, pv, pt, ra, rt, lo, ad, sb, em⟩ := e
    cases sb <;>
      simp_all [geef_worktree_add, geef_error, Term.containsResource]
  · rcases h2 with hs | hc
    · exact (h hs).elim
    · exact hc

/-- Witness for C8 at a concrete failing call (bad repository arg). -/
theorem no_handle_on_failure_witness :
    (geef_worktree_add ⟨1, 0⟩ addEnvBadRepo).1 ≠ addSuccessTerm ∧
    Term.containsResource (geef_worktree_add ⟨1, 0⟩ addEnvBadRepo).1 = false :=
  ⟨by decide, no_handle_on_failure ⟨1, 0⟩ addEnvBadRepo (by decide)⟩

/-- C9: on every prune call on a valid handle with no unrelated engine
I/O failure — in particular also when the on-disk worktree directory is
already gone — the engine prune is invoked exactly once with the
GIT_WORKTREE_PRUNE_VALID bit set in the options and the call returns
the ok atom. -/
theorem prune_sets_valid_flag (v : Version) (e : PruneEnv)
    (hv : versionGateFails v = false)
    (hh : e.handleOk = true) (hio : e.ioOk = true) :
    (geef_worktree_prune v e).2
      = [Event.enginePrune ⟨GIT_WORKTREE_PRUNE_VALID⟩] ∧
    Nat.testBit GIT_WORKTREE_PRUNE_VALID 0 = true ∧
    (geef_worktree_prune v e).1 = Term.atom "ok" := by
  obtain ⟨ho, st, io, sb, em⟩ := e
  simp only at hh hio
  subst hh hio
  cases st <;>
    simp [geef_worktree_prune, enginePruneSucceeds, hv,
      GIT_WORKTREE_PRUNE_OPTIONS_INIT, GIT_WORKTREE_PRUNE_VALID]

/-- Witness for C9 at a concrete stale worktree prune call. -/
theorem prune_sets_valid_flag_witness :
    versionGateFails ⟨1, 0⟩ = false ∧
    pruneEnvStale.handleOk = true ∧
    pruneEnvStale.ioOk = true ∧
    ((geef_worktree_prune ⟨1, 0⟩ pruneEnvStale).2
        = [Event.enginePrune ⟨GIT_WORKTREE_PRUNE_VALID⟩] ∧
      Nat.testBit GIT_WORKTREE_PRUNE_VALID 0 = true ∧
      (geef_worktree_prune ⟨1, 0⟩ pruneEnvStale).1 = Term.atom "ok") :=
  ⟨by decide, rfl, rfl,
    prune_sets_valid_flag ⟨1, 0⟩ pruneEnvStale (by decide) rfl rfl⟩

/-- C10: on a successful creation call whose reference name resolves,
the reference-name input binary is released twice — once right after
the lookup and again before the success return — not exactly once. -/
theorem ref_binary_released_twice :
    ((geef_worktree_add ⟨1, 0⟩ addEnvRefResolved).2).count
      (Event.releaseBinary BinId.ref) = 2 ∧
    (geef_worktree_add ⟨1, 0⟩ addEnvRefResolved).1 = addSuccessTerm := by
  decide

end Gitgud
